import Mathlib

/-!
Verification of the CommunityParkingRental backend (server/storage.ts,
server/routes.ts, shared/schema.ts) against its natural-language
specification.

The storage layer is embedded shallowly: the JavaScript `Map<number, T>`
collections become Lean lists together with the auto-increment counters,
every storage method becomes a pure state-passing function, and the HTTP
route handlers become functions from a state and a parsed request body to
an outcome (HTTP status plus payload) and a new state.  Dates and
timestamps are modelled at day granularity as integers, so the
`Date` arithmetic `thresholdDate.setDate(today.getDate() + days)` becomes
integer addition.
-/

namespace ParkingRental

/-- `SPACE_STATUS` in shared/schema.ts. -/
inductive SpaceStatus where
  | AVAILABLE
  | OCCUPIED
  | MAINTENANCE
deriving DecidableEq

/-- `REQUEST_STATUS` in shared/schema.ts. -/
inductive RequestStatus where
  | PENDING
  | MATCHED
  | EXPIRED
  | CANCELLED
deriving DecidableEq

/-- The string stored and interpolated for a request status. -/
def RequestStatus.text : RequestStatus → String
  | .PENDING => "PENDING"
  | .MATCHED => "MATCHED"
  | .EXPIRED => "EXPIRED"
  | .CANCELLED => "CANCELLED"

/-- Row of the `parking_spaces` table. -/
structure ParkingSpace where
  id : Nat
  spaceNumber : String
  area : String
  status : SpaceStatus
  notes : Option String
deriving DecidableEq

/-- Row of the `households` table. -/
structure Household where
  id : Nat
  householdNumber : String
  contactName : Option String
  contactPhone : Option String
  notes : Option String
deriving DecidableEq

/-- Row of the `rentals` table (dates as integer day numbers). -/
structure Rental where
  id : Nat
  parkingSpaceId : Nat
  householdId : Nat
  licensePlate : String
  startDate : Int
  endDate : Int
  isActive : Bool
  notes : Option String
  createdAt : Int
deriving DecidableEq

/-- Row of the `activity_logs` table. -/
structure ActivityLog where
  id : Nat
  activityType : String
  description : String
  timestamp : Int
  relatedId : Option Nat
deriving DecidableEq

/-- Row of the `rental_requests` table. -/
structure RentalRequest where
  id : Nat
  name : String
  contact : String
  licensePlate : String
  startDate : Int
  endDate : Int
  notes : Option String
  status : RequestStatus
  createdAt : Int
deriving DecidableEq

/-- Row of the `parking_offers` table. -/
structure ParkingOffer where
  id : Nat
  requestId : Nat
  spaceNumber : String
  ownerName : String
  ownerContact : String
  notes : Option String
  createdAt : Int
deriving DecidableEq

/-- `InsertParkingSpace` (insert schema omits `id`). -/
structure InsertParkingSpace where
  spaceNumber : String
  area : String
  status : SpaceStatus
  notes : Option String
deriving DecidableEq

/-- `InsertHousehold`. -/
structure InsertHousehold where
  householdNumber : String
  contactName : Option String
  contactPhone : Option String
  notes : Option String
deriving DecidableEq

/-- `InsertRental` (insert schema omits `id` and `createdAt`; `isActive`
defaults to `true` in the schema but remains part of the parsed body). -/
structure InsertRental where
  parkingSpaceId : Nat
  householdId : Nat
  licensePlate : String
  startDate : Int
  endDate : Int
  isActive : Bool
  notes : Option String
deriving DecidableEq

/-- `InsertActivityLog` (omits `id` and `timestamp`). -/
structure InsertActivityLog where
  activityType : String
  description : String
  relatedId : Option Nat
deriving DecidableEq

/-- `InsertParkingOffer` (omits `id` and `createdAt`). -/
structure InsertParkingOffer where
  requestId : Nat
  spaceNumber : String
  ownerName : String
  ownerContact : String
  notes : Option String
deriving DecidableEq

/-- `Partial<InsertParkingSpace>`: absent fields are `none`. -/
structure SpacePatch where
  spaceNumber : Option String := none
  area : Option String := none
  status : Option SpaceStatus := none
  notes : Option (Option String) := none
deriving DecidableEq

/-- `Partial<InsertRental>`. -/
structure RentalPatch where
  parkingSpaceId : Option Nat := none
  householdId : Option Nat := none
  licensePlate : Option String := none
  startDate : Option Int := none
  endDate : Option Int := none
  isActive : Option Bool := none
  notes : Option (Option String) := none
deriving DecidableEq

/-- `Partial<InsertHousehold>`. -/
structure HouseholdPatch where
  householdNumber : Option String := none
  contactName : Option (Option String) := none
  contactPhone : Option (Option String) := none
  notes : Option (Option String) := none
deriving DecidableEq

/-- JS object spread `{ ...existingSpace, ...space }`. -/
def mergeSpace (existing : ParkingSpace) (patch : SpacePatch) : ParkingSpace :=
  { existing with
    spaceNumber := patch.spaceNumber.getD existing.spaceNumber
    area := patch.area.getD existing.area
    status := patch.status.getD existing.status
    notes := patch.notes.getD existing.notes }

/-- JS object spread `{ ...existingRental, ...rentalUpdate }`. -/
def mergeRental (existing : Rental) (patch : RentalPatch) : Rental :=
  { existing with
    parkingSpaceId := patch.parkingSpaceId.getD existing.parkingSpaceId
    householdId := patch.householdId.getD existing.householdId
    licensePlate := patch.licensePlate.getD existing.licensePlate
    startDate := patch.startDate.getD existing.startDate
    endDate := patch.endDate.getD existing.endDate
    isActive := patch.isActive.getD existing.isActive
    notes := patch.notes.getD existing.notes }

/-- JS object spread `{ ...existingHousehold, ...household }`. -/
def mergeHousehold (existing : Household) (patch : HouseholdPatch) : Household :=
  { existing with
    householdNumber := patch.householdNumber.getD existing.householdNumber
    contactName := patch.contactName.getD existing.contactName
    contactPhone := patch.contactPhone.getD existing.contactPhone
    notes := patch.notes.getD existing.notes }

/-- `Map.set(key, v)` on a collection keyed by `hit`: replaces the entry
when the key is present, otherwise appends in insertion order. -/
def mapSet {α : Type} (l : List α) (hit : α → Bool) (v : α) : List α :=
  if l.any hit then l.map (fun x => if hit x then v else x) else l ++ [v]

/-- `Map.delete(key)`: whether a matching entry existed, and the rest. -/
def mapDelete {α : Type} (l : List α) (hit : α → Bool) : Bool × List α :=
  (l.any hit, l.filter (fun x => !hit x))

/-- The fields of a `MemStorage` instance (and likewise the six database
tables with their serial counters); `now` models `new Date()`. -/
structure MemState where
  parkingSpaces : List ParkingSpace
  households : List Household
  rentals : List Rental
  activityLogs : List ActivityLog
  rentalRequests : List RentalRequest
  parkingOffers : List ParkingOffer
  parkingSpaceCurrentId : Nat
  householdCurrentId : Nat
  rentalCurrentId : Nat
  activityLogCurrentId : Nat
  rentalRequestCurrentId : Nat
  parkingOfferCurrentId : Nat
  now : Int
deriving DecidableEq

/-- The aggregate returned by `getDashboardStats`. -/
structure DashboardStats where
  totalSpaces : Nat
  occupiedSpaces : Nat
  availableSpaces : Nat
  maintenanceSpaces : Nat
  activeRentalsCount : Nat
deriving DecidableEq

namespace MemStorage

/-- `MemStorage.getParkingSpaceById`. -/
def getParkingSpaceById (s : MemState) (id : Nat) : Option ParkingSpace :=
  s.parkingSpaces.find? (fun p => p.id == id)

/-- `MemStorage.getHouseholdById`. -/
def getHouseholdById (s : MemState) (id : Nat) : Option Household :=
  s.households.find? (fun h => h.id == id)

/-- `MemStorage.getRentalById`. -/
def getRentalById (s : MemState) (id : Nat) : Option Rental :=
  s.rentals.find? (fun r => r.id == id)

/-- `MemStorage.getRentalsByParkingSpaceId`. -/
def getRentalsByParkingSpaceId (s : MemState) (parkingSpaceId : Nat) : List Rental :=
  s.rentals.filter (fun r => r.parkingSpaceId == parkingSpaceId)

/-- `MemStorage.getRentalsByHouseholdId`. -/
def getRentalsByHouseholdId (s : MemState) (householdId : Nat) : List Rental :=
  s.rentals.filter (fun r => r.householdId == householdId)

/-- `MemStorage.getActiveRentals`. -/
def getActiveRentals (s : MemState) : List Rental :=
  s.rentals.filter (fun r => r.isActive)

/-- `MemStorage.getRentalRequestById`. -/
def getRentalRequestById (s : MemState) (id : Nat) : Option RentalRequest :=
  s.rentalRequests.find? (fun q => q.id == id)

/-- `MemStorage.createActivityLog`: fresh id from the counter, stamps the
current time, inserts the row. -/
def createActivityLog (s : MemState) (log : InsertActivityLog) :
    ActivityLog × MemState :=
  let id := s.activityLogCurrentId
  let newLog : ActivityLog :=
    { id := id, activityType := log.activityType,
      description := log.description, timestamp := s.now,
      relatedId := log.relatedId }
  (newLog,
    { s with
      activityLogs := mapSet s.activityLogs (fun l => l.id == id) newLog
      activityLogCurrentId := id + 1 })

/-- `MemStorage.createParkingSpace`. -/
def createParkingSpace (s : MemState) (space : InsertParkingSpace) :
    ParkingSpace × MemState :=
  let id := s.parkingSpaceCurrentId
  let newSpace : ParkingSpace :=
    { id := id, spaceNumber := space.spaceNumber, area := space.area,
      status := space.status, notes := space.notes }
  let s1 :=
    { s with
      parkingSpaces := mapSet s.parkingSpaces (fun p => p.id == id) newSpace
      parkingSpaceCurrentId := id + 1 }
  let s2 := (createActivityLog s1
    { activityType := "SPACE_CREATED"
      description := "新增車位 " ++ space.spaceNumber
      relatedId := some id }).2
  (newSpace, s2)

/-- `MemStorage.updateParkingSpace`. -/
def updateParkingSpace (s : MemState) (id : Nat) (patch : SpacePatch) :
    Option ParkingSpace × MemState :=
  match getParkingSpaceById s id with
  | none => (none, s)
  | some existingSpace =>
    let updatedSpace := mergeSpace existingSpace patch
    let s1 :=
      { s with
        parkingSpaces := mapSet s.parkingSpaces (fun p => p.id == id) updatedSpace }
    let s2 := (createActivityLog s1
      { activityType := "SPACE_UPDATED"
        description := "更新車位 " ++ updatedSpace.spaceNumber ++ " 資訊"
        relatedId := some id }).2
    (some updatedSpace, s2)

/-- `MemStorage.deleteParkingSpace`: refuses when an active rental
references the space. -/
def deleteParkingSpace (s : MemState) (id : Nat) : Bool × MemState :=
  match getParkingSpaceById s id with
  | none => (false, s)
  | some space =>
    if (getRentalsByParkingSpaceId s id).any (fun r => r.isActive) then
      (false, s)
    else
      let del := mapDelete s.parkingSpaces (fun p => p.id == id)
      let s1 := { s with parkingSpaces := del.2 }
      if del.1 then
        let s2 := (createActivityLog s1
          { activityType := "SPACE_DELETED"
            description := "刪除車位 " ++ space.spaceNumber
            relatedId := none }).2
        (true, s2)
      else (false, s1)

/-- `MemStorage.createHousehold`. -/
def createHousehold (s : MemState) (household : InsertHousehold) :
    Household × MemState :=
  let id := s.householdCurrentId
  let newHousehold : Household :=
    { id := id, householdNumber := household.householdNumber,
      contactName := household.contactName,
      contactPhone := household.contactPhone, notes := household.notes }
  let s1 :=
    { s with
      households := mapSet s.households (fun h => h.id == id) newHousehold
      householdCurrentId := id + 1 }
  let s2 := (createActivityLog s1
    { activityType := "HOUSEHOLD_CREATED"
      description := "新增住戶 " ++ household.householdNumber
      relatedId := some id }).2
  (newHousehold, s2)

/-- `MemStorage.updateHousehold`. -/
def updateHousehold (s : MemState) (id : Nat) (patch : HouseholdPatch) :
    Option Household × MemState :=
  match getHouseholdById s id with
  | none => (none, s)
  | some existingHousehold =>
    let updatedHousehold := mergeHousehold existingHousehold patch
    let s1 :=
      { s with
        households := mapSet s.households (fun h => h.id == id) updatedHousehold }
    let s2 := (createActivityLog s1
      { activityType := "HOUSEHOLD_UPDATED"
        description := "更新住戶 " ++ updatedHousehold.householdNumber ++ " 資訊"
        relatedId := some id }).2
    (some updatedHousehold, s2)

/-- `MemStorage.deleteHousehold`: refuses when an active rental
references the household. -/
def deleteHousehold (s : MemState) (id : Nat) : Bool × MemState :=
  match getHouseholdById s id with
  | none => (false, s)
  | some household =>
    if (getRentalsByHouseholdId s id).any (fun r => r.isActive) then
      (false, s)
    else
      let del := mapDelete s.households (fun h => h.id == id)
      let s1 := { s with households := del.2 }
      if del.1 then
        let s2 := (createActivityLog s1
          { activityType := "HOUSEHOLD_DELETED"
            description := "刪除住戶 " ++ household.householdNumber
            relatedId := none }).2
        (true, s2)
      else (false, s1)

/-- `MemStorage.createRental`: inserts the rental, updates the referenced
space to OCCUPIED through `updateParkingSpace` (which itself logs), then
logs RENTAL_CREATED. -/
def createRental (s : MemState) (rental : InsertRental) : Rental × MemState :=
  let id := s.rentalCurrentId
  let newRental : Rental :=
    { id := id, parkingSpaceId := rental.parkingSpaceId,
      householdId := rental.householdId, licensePlate := rental.licensePlate,
      startDate := rental.startDate, endDate := rental.endDate,
      isActive := rental.isActive, notes := rental.notes, createdAt := s.now }
  let s1 :=
    { s with
      rentals := mapSet s.rentals (fun r => r.id == id) newRental
      rentalCurrentId := id + 1 }
  let space := getParkingSpaceById s1 rental.parkingSpaceId
  let s2 := match space with
    | some sp => (updateParkingSpace s1 sp.id { status := some SpaceStatus.OCCUPIED }).2
    | none => s1
  let spaceNumber := match space with
    | some sp => sp.spaceNumber
    | none => "ID: " ++ toString rental.parkingSpaceId
  let householdNumber := match getHouseholdById s2 rental.householdId with
    | some h => h.householdNumber
    | none => "ID: " ++ toString rental.householdId
  let s3 := (createActivityLog s2
    { activityType := "RENTAL_CREATED"
      description := "新增租借: 車位 " ++ spaceNumber ++ " 租給 " ++
        householdNumber ++ "室 (" ++ rental.licensePlate ++ ")"
      relatedId := some id }).2
  (newRental, s3)

/-- `MemStorage.updateRental`. -/
def updateRental (s : MemState) (id : Nat) (patch : RentalPatch) :
    Option Rental × MemState :=
  match getRentalById s id with
  | none => (none, s)
  | some existingRental =>
    let updatedRental := mergeRental existingRental patch
    let s1 :=
      { s with rentals := mapSet s.rentals (fun r => r.id == id) updatedRental }
    let s2 := (createActivityLog s1
      { activityType := "RENTAL_UPDATED"
        description := "更新租借記錄 ID: " ++ toString id
        relatedId := some id }).2
    (some updatedRental, s2)

/-- `MemStorage.endRental`: deactivates the rental whenever it exists (no
check of `isActive`), flips the space to AVAILABLE through
`updateParkingSpace`, and logs RENTAL_ENDED. -/
def endRental (s : MemState) (id : Nat) : Bool × MemState :=
  match getRentalById s id with
  | none => (false, s)
  | some rental =>
    let rental1 := { rental with isActive := false }
    let s1 := { s with rentals := mapSet s.rentals (fun r => r.id == id) rental1 }
    match getParkingSpaceById s1 rental.parkingSpaceId with
    | some space =>
      let s2 := (updateParkingSpace s1 space.id { status := some SpaceStatus.AVAILABLE }).2
      let s3 := (createActivityLog s2
        { activityType := "RENTAL_ENDED"
          description := "租約結束: 車位 " ++ space.spaceNumber ++ " (" ++
            rental1.licensePlate ++ ") 租約到期"
          relatedId := some id }).2
      (true, s3)
    | none => (true, s1)

/-- `MemStorage.getExpiringRentals`: active rentals whose end date lies
between today and today plus the threshold, inclusive. -/
def getExpiringRentals (s : MemState) (daysThreshold : Int) : List Rental :=
  let today := s.now
  let thresholdDate := s.now + daysThreshold
  s.rentals.filter (fun r =>
    r.isActive && (decide (r.endDate ≤ thresholdDate) && decide (today ≤ r.endDate)))

/-- `MemStorage.getDashboardStats`. -/
def getDashboardStats (s : MemState) : DashboardStats :=
  let allSpaces := s.parkingSpaces
  { totalSpaces := allSpaces.length
    occupiedSpaces := (allSpaces.filter (fun p => p.status == SpaceStatus.OCCUPIED)).length
    maintenanceSpaces := (allSpaces.filter (fun p => p.status == SpaceStatus.MAINTENANCE)).length
    availableSpaces := (allSpaces.filter (fun p => p.status == SpaceStatus.AVAILABLE)).length
    activeRentalsCount := (getActiveRentals s).length }

/-- `MemStorage.updateRentalRequestStatus`. -/
def updateRentalRequestStatus (s : MemState) (id : Nat) (status : RequestStatus) :
    Option RentalRequest × MemState :=
  match getRentalRequestById s id with
  | none => (none, s)
  | some existingRequest =>
    let updatedRequest := { existingRequest with status := status }
    let s1 :=
      { s with rentalRequests := mapSet s.rentalRequests (fun q => q.id == id) updatedRequest }
    let s2 := (createActivityLog s1
      { activityType := "REQUEST_UPDATED"
        description := "更新租借申請狀態: " ++ toString id ++ " 至 " ++ status.text
        relatedId := some id }).2
    (some updatedRequest, s2)

/-- `MemStorage.createParkingOffer`: inserts the offer, flips the owning
request to MATCHED through `updateRentalRequestStatus`, logs
OFFER_CREATED. -/
def createParkingOffer (s : MemState) (offer : InsertParkingOffer) :
    ParkingOffer × MemState :=
  let id := s.parkingOfferCurrentId
  let newOffer : ParkingOffer :=
    { id := id, requestId := offer.requestId, spaceNumber := offer.spaceNumber,
      ownerName := offer.ownerName, ownerContact := offer.ownerContact,
      notes := offer.notes, createdAt := s.now }
  let s1 :=
    { s with
      parkingOffers := mapSet s.parkingOffers (fun o => o.id == id) newOffer
      parkingOfferCurrentId := id + 1 }
  let s2 := match getRentalRequestById s1 offer.requestId with
    | some request => (updateRentalRequestStatus s1 request.id RequestStatus.MATCHED).2
    | none => s1
  let s3 := (createActivityLog s2
    { activityType := "OFFER_CREATED"
      description := "車位提供: " ++ offer.ownerName ++ " 提供車位 " ++
        offer.spaceNumber ++ " 給請求 " ++ toString offer.requestId
      relatedId := some id }).2
  (newOffer, s3)

end MemStorage

namespace DatabaseStorage

/-- `DatabaseStorage.createActivityLog`: serial id, stamps the time;
`relatedId: log.relatedId || null` turns a zero id into null. -/
def createActivityLog (s : MemState) (log : InsertActivityLog) :
    ActivityLog × MemState :=
  let id := s.activityLogCurrentId
  let newLog : ActivityLog :=
    { id := id, activityType := log.activityType,
      description := log.description, timestamp := s.now,
      relatedId := match log.relatedId with
        | some 0 => none
        | x => x }
  (newLog,
    { s with
      activityLogs := s.activityLogs ++ [newLog]
      activityLogCurrentId := id + 1 })

/-- `DatabaseStorage.getParkingSpaceById` (select where id). -/
def getParkingSpaceById (s : MemState) (id : Nat) : Option ParkingSpace :=
  s.parkingSpaces.find? (fun p => p.id == id)

/-- `DatabaseStorage.getHouseholdById`. -/
def getHouseholdById (s : MemState) (id : Nat) : Option Household :=
  s.households.find? (fun h => h.id == id)

/-- `DatabaseStorage.getRentalsByParkingSpaceId` (select where). -/
def getRentalsByParkingSpaceId (s : MemState) (parkingSpaceId : Nat) : List Rental :=
  s.rentals.filter (fun r => r.parkingSpaceId == parkingSpaceId)

/-- `DatabaseStorage.getRentalsByHouseholdId` (select where). -/
def getRentalsByHouseholdId (s : MemState) (householdId : Nat) : List Rental :=
  s.rentals.filter (fun r => r.householdId == householdId)

/-- `DatabaseStorage.createParkingSpace`: SQL insert with a serial id,
then one SPACE_CREATED log row. -/
def createParkingSpace (s : MemState) (space : InsertParkingSpace) :
    ParkingSpace × MemState :=
  let id := s.parkingSpaceCurrentId
  let newSpace : ParkingSpace :=
    { id := id, spaceNumber := space.spaceNumber, area := space.area,
      status := space.status, notes := space.notes }
  let s1 :=
    { s with
      parkingSpaces := s.parkingSpaces ++ [newSpace]
      parkingSpaceCurrentId := id + 1 }
  let s2 := (createActivityLog s1
    { activityType := "SPACE_CREATED"
      description := "新增車位 " ++ space.spaceNumber
      relatedId := some id }).2
  (newSpace, s2)

/-- `DatabaseStorage.updateParkingSpace`: SQL update returning the
updated row, logs SPACE_UPDATED only when a row matched. -/
def updateParkingSpace (s : MemState) (id : Nat) (patch : SpacePatch) :
    Option ParkingSpace × MemState :=
  let s1 :=
    { s with parkingSpaces := s.parkingSpaces.map (fun p =>
        if p.id == id then mergeSpace p patch else p) }
  match (s.parkingSpaces.find? (fun p => p.id == id)).map
      (fun p => mergeSpace p patch) with
  | none => (none, s1)
  | some updatedSpace =>
    let s2 := (createActivityLog s1
      { activityType := "SPACE_UPDATED"
        description := "更新車位 " ++ updatedSpace.spaceNumber ++ " 資訊"
        relatedId := some id }).2
    (some updatedSpace, s2)

/-- `DatabaseStorage.deleteParkingSpace`: refuses when the row is
missing or an active rental references it; otherwise deletes and, when
the delete count is positive, logs SPACE_DELETED. -/
def deleteParkingSpace (s : MemState) (id : Nat) : Bool × MemState :=
  match s.parkingSpaces.find? (fun p => p.id == id) with
  | none => (false, s)
  | some space =>
    if (getRentalsByParkingSpaceId s id).any (fun r => r.isActive) then
      (false, s)
    else
      let count := s.parkingSpaces.countP (fun p => p.id == id)
      let s1 :=
        { s with parkingSpaces := s.parkingSpaces.filter (fun p => !(p.id == id)) }
      if count > 0 then
        let s2 := (createActivityLog s1
          { activityType := "SPACE_DELETED"
            description := "刪除車位 " ++ space.spaceNumber
            relatedId := none }).2
        (true, s2)
      else (false, s1)

/-- `DatabaseStorage.createHousehold`: SQL insert with a serial id, then
one HOUSEHOLD_CREATED log row. -/
def createHousehold (s : MemState) (household : InsertHousehold) :
    Household × MemState :=
  let id := s.householdCurrentId
  let newHousehold : Household :=
    { id := id, householdNumber := household.householdNumber,
      contactName := household.contactName,
      contactPhone := household.contactPhone, notes := household.notes }
  let s1 :=
    { s with
      households := s.households ++ [newHousehold]
      householdCurrentId := id + 1 }
  let s2 := (createActivityLog s1
    { activityType := "HOUSEHOLD_CREATED"
      description := "新增住戶 " ++ household.householdNumber
      relatedId := some id }).2
  (newHousehold, s2)

/-- `DatabaseStorage.updateHousehold`: SQL update returning the updated
row, logs HOUSEHOLD_UPDATED only when a row matched. -/
def updateHousehold (s : MemState) (id : Nat) (patch : HouseholdPatch) :
    Option Household × MemState :=
  let s1 :=
    { s with households := s.households.map (fun h =>
        if h.id == id then mergeHousehold h patch else h) }
  match (s.households.find? (fun h => h.id == id)).map
      (fun h => mergeHousehold h patch) with
  | none => (none, s1)
  | some updatedHousehold =>
    let s2 := (createActivityLog s1
      { activityType := "HOUSEHOLD_UPDATED"
        description := "更新住戶 " ++ updatedHousehold.householdNumber ++ " 資訊"
        relatedId := some id }).2
    (some updatedHousehold, s2)

/-- `DatabaseStorage.deleteHousehold`: refuses when the row is missing
or an active rental references it; otherwise deletes and, when the
delete count is positive, logs HOUSEHOLD_DELETED. -/
def deleteHousehold (s : MemState) (id : Nat) : Bool × MemState :=
  match s.households.find? (fun h => h.id == id) with
  | none => (false, s)
  | some household =>
    if (getRentalsByHouseholdId s id).any (fun r => r.isActive) then
      (false, s)
    else
      let count := s.households.countP (fun h => h.id == id)
      let s1 :=
        { s with households := s.households.filter (fun h => !(h.id == id)) }
      if count > 0 then
        let s2 := (createActivityLog s1
          { activityType := "HOUSEHOLD_DELETED"
            description := "刪除住戶 " ++ household.householdNumber
            relatedId := none }).2
        (true, s2)
      else (false, s1)

/-- `DatabaseStorage.createRental`: in one transaction inserts the rental
row (serial id) and sets the space row to OCCUPIED directly in SQL
(without the SPACE_UPDATED log of the in-memory variant), then logs
RENTAL_CREATED once. -/
def createRental (s : MemState) (rental : InsertRental) : Rental × MemState :=
  let id := s.rentalCurrentId
  let newRental : Rental :=
    { id := id, parkingSpaceId := rental.parkingSpaceId,
      householdId := rental.householdId, licensePlate := rental.licensePlate,
      startDate := rental.startDate, endDate := rental.endDate,
      isActive := rental.isActive, notes := rental.notes, createdAt := s.now }
  let s1 :=
    { s with
      rentals := s.rentals ++ [newRental]
      rentalCurrentId := id + 1
      parkingSpaces := s.parkingSpaces.map (fun p =>
        if p.id == rental.parkingSpaceId then
          { p with status := SpaceStatus.OCCUPIED }
        else p) }
  let spaceNumber := match getParkingSpaceById s1 rental.parkingSpaceId with
    | some sp => sp.spaceNumber
    | none => "ID: " ++ toString rental.parkingSpaceId
  let householdNumber := match getHouseholdById s1 rental.householdId with
    | some h => h.householdNumber
    | none => "ID: " ++ toString rental.householdId
  let s2 := (createActivityLog s1
    { activityType := "RENTAL_CREATED"
      description := "新增租借: 車位 " ++ spaceNumber ++ " 租給 " ++
        householdNumber ++ "室 (" ++ rental.licensePlate ++ ")"
      relatedId := some id }).2
  (newRental, s2)

/-- `DatabaseStorage.updateRental`: SQL update returning the updated row,
logs RENTAL_UPDATED only when a row matched. -/
def updateRental (s : MemState) (id : Nat) (patch : RentalPatch) :
    Option Rental × MemState :=
  let s1 :=
    { s with rentals := s.rentals.map (fun r =>
        if r.id == id then mergeRental r patch else r) }
  match (s.rentals.find? (fun r => r.id == id)).map (fun r => mergeRental r patch) with
  | none => (none, s1)
  | some updatedRental =>
    let s2 := (createActivityLog s1
      { activityType := "RENTAL_UPDATED"
        description := "更新租借記錄 ID: " ++ toString id
        relatedId := some id }).2
    (some updatedRental, s2)

/-- `DatabaseStorage.endRental`: returns false when the rental is missing
or already inactive; otherwise in one transaction deactivates the rental
and sets the space to AVAILABLE directly in SQL, then logs RENTAL_ENDED
once. -/
def endRental (s : MemState) (id : Nat) : Bool × MemState :=
  match s.rentals.find? (fun r => r.id == id) with
  | none => (false, s)
  | some rental =>
    if rental.isActive = false then (false, s)
    else
      let s1 :=
        { s with
          rentals := s.rentals.map (fun r =>
            if r.id == id then { r with isActive := false } else r)
          parkingSpaces := s.parkingSpaces.map (fun p =>
            if p.id == rental.parkingSpaceId then
              { p with status := SpaceStatus.AVAILABLE }
            else p) }
      let success := s.rentals.any (fun r => r.id == id)
      if success then
        let spaceNumber := match getParkingSpaceById s1 rental.parkingSpaceId with
          | some sp => sp.spaceNumber
          | none => toString rental.parkingSpaceId
        let s2 := (createActivityLog s1
          { activityType := "RENTAL_ENDED"
            description := "租約結束: 車位 " ++ spaceNumber ++ " (" ++
              rental.licensePlate ++ ") 租約到期"
            relatedId := some id }).2
        (true, s2)
      else (false, s1)

/-- `DatabaseStorage.getDashboardStats`: five SQL count queries. -/
def getDashboardStats (s : MemState) : DashboardStats :=
  { totalSpaces := s.parkingSpaces.length
    occupiedSpaces := s.parkingSpaces.countP (fun p => p.status == SpaceStatus.OCCUPIED)
    availableSpaces := s.parkingSpaces.countP (fun p => p.status == SpaceStatus.AVAILABLE)
    maintenanceSpaces := s.parkingSpaces.countP (fun p => p.status == SpaceStatus.MAINTENANCE)
    activeRentalsCount := s.rentals.countP (fun r => r.isActive) }

end DatabaseStorage

/-- Outcome of a route handler: `res.status(n).json(...)` on success or
`res.status(n).json(message)` on error. -/
inductive ApiOutcome (α : Type) where
  | ok (httpStatus : Nat) (val : α)
  | err (httpStatus : Nat) (message : String)
deriving DecidableEq

namespace Routes

/-- `POST /api/rentals` (routes.ts): guards that the space exists and is
AVAILABLE and that the household exists, then delegates to the storage
layer (in-memory backend). -/
def apiCreateRental (s : MemState) (body : InsertRental) :
    ApiOutcome Rental × MemState :=
  match MemStorage.getParkingSpaceById s body.parkingSpaceId with
  | none => (ApiOutcome.err 400 "車位不存在 / Parking space does not exist", s)
  | some parkingSpace =>
    if parkingSpace.status ≠ SpaceStatus.AVAILABLE then
      (ApiOutcome.err 400 "車位不可用 / Parking space is not available", s)
    else
      match MemStorage.getHouseholdById s body.householdId with
      | none => (ApiOutcome.err 400 "住戶不存在 / Household does not exist", s)
      | some _ =>
        let out := MemStorage.createRental s body
        (ApiOutcome.ok 201 out.1, out.2)

/-- `POST /api/rentals` with the database backend selected. -/
def apiCreateRentalDb (s : MemState) (body : InsertRental) :
    ApiOutcome Rental × MemState :=
  match DatabaseStorage.getParkingSpaceById s body.parkingSpaceId with
  | none => (ApiOutcome.err 400 "車位不存在 / Parking space does not exist", s)
  | some parkingSpace =>
    if parkingSpace.status ≠ SpaceStatus.AVAILABLE then
      (ApiOutcome.err 400 "車位不可用 / Parking space is not available", s)
    else
      match DatabaseStorage.getHouseholdById s body.householdId with
      | none => (ApiOutcome.err 400 "住戶不存在 / Household does not exist", s)
      | some _ =>
        let out := DatabaseStorage.createRental s body
        (ApiOutcome.ok 201 out.1, out.2)

/-- `POST /api/rentals/:id/end` (in-memory backend): 404 when the storage
call reports failure. -/
def apiEndRental (s : MemState) (id : Nat) : ApiOutcome String × MemState :=
  let out := MemStorage.endRental s id
  if out.1 then (ApiOutcome.ok 200 "Rental ended successfully", out.2)
  else (ApiOutcome.err 404 "Rental not found", out.2)

/-- `POST /api/rentals/:id/end` with the database backend selected. -/
def apiEndRentalDb (s : MemState) (id : Nat) : ApiOutcome String × MemState :=
  let out := DatabaseStorage.endRental s id
  if out.1 then (ApiOutcome.ok 200 "Rental ended successfully", out.2)
  else (ApiOutcome.err 404 "Rental not found", out.2)

/-- `PUT /api/rentals/:id`. -/
def apiUpdateRental (s : MemState) (id : Nat) (body : RentalPatch) :
    ApiOutcome Rental × MemState :=
  let out := MemStorage.updateRental s id body
  match out.1 with
  | none => (ApiOutcome.err 404 "Rental not found", out.2)
  | some updatedRental => (ApiOutcome.ok 200 updatedRental, out.2)

/-- `DELETE /api/parking-spaces/:id`: a 404 both when the space is
missing and when the storage layer refuses the delete. -/
def apiDeleteParkingSpace (s : MemState) (id : Nat) :
    ApiOutcome Unit × MemState :=
  let out := MemStorage.deleteParkingSpace s id
  if out.1 then (ApiOutcome.ok 204 (), out.2)
  else (ApiOutcome.err 404 "Parking space not found or cannot be deleted", out.2)

/-- `DELETE /api/households/:id`. -/
def apiDeleteHousehold (s : MemState) (id : Nat) :
    ApiOutcome Unit × MemState :=
  let out := MemStorage.deleteHousehold s id
  if out.1 then (ApiOutcome.ok 204 (), out.2)
  else (ApiOutcome.err 404 "Household not found or cannot be deleted", out.2)

/-- Request body of `POST /api/rental-requests/:requestId/offers`
(`parkingOfferFormSchema`: the request id comes from the path). -/
structure ParkingOfferBody where
  spaceNumber : String
  ownerName : String
  ownerContact : String
  notes : Option String
deriving DecidableEq

/-- `POST /api/rental-requests/:requestId/offers`: 404 when the request
is missing, 400 when its status is no longer PENDING. -/
def apiCreateParkingOffer (s : MemState) (requestId : Nat)
    (body : ParkingOfferBody) : ApiOutcome ParkingOffer × MemState :=
  match MemStorage.getRentalRequestById s requestId with
  | none => (ApiOutcome.err 404 "找不到租借申請 / Rental request not found", s)
  | some request =>
    if request.status ≠ RequestStatus.PENDING then
      (ApiOutcome.err 400 "租借申請不再接受新的報價 / Rental request is no longer accepting offers", s)
    else
      let out := MemStorage.createParkingOffer s
        { requestId := requestId, spaceNumber := body.spaceNumber,
          ownerName := body.ownerName, ownerContact := body.ownerContact,
          notes := body.notes }
      (ApiOutcome.ok 201 out.1, out.2)

/-- `parseInt(req.query.days) || 7` in `GET /api/rentals/expiring`: an
absent days parameter parses to NaN, and both NaN and 0 are falsy. -/
def parseDaysParam (days : Option Int) : Int :=
  match days with
  | none => 7
  | some n => if n == 0 then 7 else n

/-- `GET /api/rentals/expiring?days=N` (in-memory backend). -/
def apiGetExpiringRentals (s : MemState) (days : Option Int) : List Rental :=
  MemStorage.getExpiringRentals s (parseDaysParam days)

end Routes

/-- The rental-lifecycle operations of the claim about reachable states:
route-level create-rental and end-rental requests. -/
inductive ApiOp where
  | createRental (body : InsertRental)
  | endRental (id : Nat)
deriving DecidableEq

/-- One route-level operation against the in-memory backend. -/
def applyOp (s : MemState) (op : ApiOp) : MemState :=
  match op with
  | ApiOp.createRental body => (Routes.apiCreateRental s body).2
  | ApiOp.endRental id => (Routes.apiEndRental s id).2

/-- A sequence of route-level operations against the in-memory backend. -/
def runOps (s : MemState) (ops : List ApiOp) : MemState :=
  ops.foldl applyOp s

/-- One route-level operation against the database backend. -/
def applyOpDb (s : MemState) (op : ApiOp) : MemState :=
  match op with
  | ApiOp.createRental body => (Routes.apiCreateRentalDb s body).2
  | ApiOp.endRental id => (Routes.apiEndRentalDb s id).2

/-- A sequence of route-level operations against the database backend. -/
def runOpsDb (s : MemState) (ops : List ApiOp) : MemState :=
  ops.foldl applyOpDb s

/-- The correspondence of the claimed invariant, at the level of the two
tables: a space is OCCUPIED exactly when an active rental references
it. -/
def occupancyInv (spaces : List ParkingSpace) (rentals : List Rental) : Prop :=
  ∀ p ∈ spaces,
    (p.status = SpaceStatus.OCCUPIED ↔
      ∃ r ∈ rentals, r.parkingSpaceId = p.id ∧ r.isActive = true)

/-- At most one active rental references any given space. -/
def uniqInv (rentals : List Rental) : Prop :=
  rentals.Pairwise (fun r1 r2 =>
    r1.isActive = true → r2.isActive = true →
      r1.parkingSpaceId ≠ r2.parkingSpaceId)

/-- The specified invariant: a space is OCCUPIED exactly when an active
rental references it. -/
def spaceOccupiedIffActiveRental (s : MemState) : Prop :=
  occupancyInv s.parkingSpaces s.rentals

/-- At most one active rental references any given space (the Rental
invariant of the data-model section). -/
def atMostOneActivePerSpace (s : MemState) : Prop :=
  uniqInv s.rentals

/-- Rental ids are below the serial counter and pairwise distinct. -/
def rentalIdsFresh (s : MemState) : Prop :=
  (∀ r ∈ s.rentals, r.id < s.rentalCurrentId) ∧
    (s.rentals.map (fun r => r.id)).Nodup

/-- The state assumptions under which the lifecycle invariant is
preserved. -/
def rentalStateOk (s : MemState) : Prop :=
  spaceOccupiedIffActiveRental s ∧ atMostOneActivePerSpace s ∧ rentalIdsFresh s

/-- Every create body in the operation list carries `isActive = true`
(the schema default for `rentals.is_active`). -/
def opsCreateActive (ops : List ApiOp) : Bool :=
  ops.all (fun op =>
    match op with
    | ApiOp.createRental b => b.isActive
    | ApiOp.endRental _ => true)

instance (spaces : List ParkingSpace) (rentals : List Rental) :
    Decidable (occupancyInv spaces rentals) := by
  unfold occupancyInv
  infer_instance

instance (rentals : List Rental) : Decidable (uniqInv rentals) := by
  unfold uniqInv
  infer_instance

instance (s : MemState) : Decidable (spaceOccupiedIffActiveRental s) := by
  unfold spaceOccupiedIffActiveRental
  infer_instance

instance (s : MemState) : Decidable (atMostOneActivePerSpace s) := by
  unfold atMostOneActivePerSpace
  infer_instance

instance (s : MemState) : Decidable (rentalIdsFresh s) := by
  unfold rentalIdsFresh
  infer_instance

instance (s : MemState) : Decidable (rentalStateOk s) := by
  unfold rentalStateOk
  infer_instance

/-- Activity-log ids already stored are below the serial counter; this
holds in every state the system actually produces, because logs are only
created with the counter value and the counter then increments. -/
def logIdsFresh (s : MemState) : Prop :=
  ∀ l ∈ s.activityLogs, l.id < s.activityLogCurrentId

instance (s : MemState) : Decidable (logIdsFresh s) := by
  unfold logIdsFresh
  infer_instance

/-- Number of RENTAL_ENDED entries in the activity log. -/
def countRentalEnded (s : MemState) : Nat :=
  (s.activityLogs.filter (fun l => l.activityType == "RENTAL_ENDED")).length

/- Concrete fixtures used by counterexamples and witnesses. -/

/-- A single available space, as in the seeded data. -/
def spaceA01 : ParkingSpace :=
  { id := 1, spaceNumber := "A-01", area := "A",
    status := SpaceStatus.AVAILABLE, notes := none }

/-- A single household, as in the seeded data. -/
def household1201 : Household :=
  { id := 1, householdNumber := "1201", contactName := some "王小明",
    contactPhone := some "0912-345-678", notes := none }

/-- A small state: one available space, one household, nothing else. -/
def baseState : MemState :=
  { parkingSpaces := [spaceA01], households := [household1201],
    rentals := [], activityLogs := [], rentalRequests := [],
    parkingOffers := [], parkingSpaceCurrentId := 2, householdCurrentId := 2,
    rentalCurrentId := 1, activityLogCurrentId := 1,
    rentalRequestCurrentId := 1, parkingOfferCurrentId := 1, now := 0 }

/-- A valid rental creation body for `baseState`. -/
def rentalBody : InsertRental :=
  { parkingSpaceId := 1, householdId := 1, licensePlate := "ABC-123",
    startDate := 0, endDate := 31, isActive := true, notes := none }

/-- Create a rental, end it, rent the space again, then replay the first
(already-ended) end-rental request. -/
def staleEndOps : List ApiOp :=
  [ApiOp.createRental rentalBody, ApiOp.endRental 1,
   ApiOp.createRental rentalBody, ApiOp.endRental 1]

/-- The space of `baseState` marked OCCUPIED. -/
def spaceA01Occupied : ParkingSpace :=
  { spaceA01 with status := SpaceStatus.OCCUPIED }

/-- A rental that has already been ended. -/
def endedRental : Rental :=
  { id := 1, parkingSpaceId := 1, householdId := 1, licensePlate := "ABC-123",
    startDate := 0, endDate := 31, isActive := false, notes := none,
    createdAt := 0 }

/-- The active rental currently occupying the space. -/
def activeRental2 : Rental :=
  { id := 2, parkingSpaceId := 1, householdId := 1, licensePlate := "XYZ-789",
    startDate := 0, endDate := 60, isActive := true, notes := none,
    createdAt := 0 }

/-- Rental 1 on space 1 has been ended and the space has since been
re-rented through rental 2: the space is OCCUPIED again. -/
def staleEndState : MemState :=
  { baseState with
    parkingSpaces := [spaceA01Occupied]
    rentals := [endedRental, activeRental2]
    rentalCurrentId := 3 }

/-- One space occupied by one active rental. -/
def occupiedState : MemState :=
  { baseState with
    parkingSpaces := [spaceA01Occupied]
    rentals := [activeRental2]
    rentalCurrentId := 3 }

/-- A rental request that has already been matched. -/
def matchedRequest : RentalRequest :=
  { id := 1, name := "X", contact := "Y", licensePlate := "Z",
    startDate := 0, endDate := 31, notes := none,
    status := RequestStatus.MATCHED, createdAt := 0 }

/-- A state whose only rental request is already MATCHED. -/
def matchedRequestState : MemState :=
  { baseState with rentalRequests := [matchedRequest], rentalRequestCurrentId := 2 }

/-- An offer body for the witness scenarios. -/
def offerBody : Routes.ParkingOfferBody :=
  { spaceNumber := "B-02", ownerName := "Owner", ownerContact := "0900",
    notes := none }

/-- A patch that deactivates a rental, as `PUT /api/rentals/:id` receives
when a client sets `isActive` to false. -/
def deactivatePatch : RentalPatch := { isActive := some false }

/-- A rental whose parking space id does not exist in the store. -/
def orphanRental : Rental :=
  { id := 1, parkingSpaceId := 99, householdId := 1, licensePlate := "GHO-ST1",
    startDate := 0, endDate := 31, isActive := true, notes := none,
    createdAt := 0 }

/-- A state containing an active rental that references a missing
space. -/
def orphanRentalState : MemState :=
  { baseState with rentals := [orphanRental], rentalCurrentId := 2 }

/- General helper lemmas shared by the claim theorems. -/

theorem any_of_find?_eq_some {α : Type} {p : α → Bool} {l : List α} {a : α}
    (h : l.find? p = some a) : l.any p = true := by
  rw [List.any_eq_true]
  exact ⟨a, List.mem_of_find?_eq_some h, List.find?_some h⟩

/-- The three space statuses partition any list of spaces. -/
theorem parkingSpaces_status_partition (l : List ParkingSpace) :
    (l.filter (fun p => p.status == SpaceStatus.OCCUPIED)).length
      + (l.filter (fun p => p.status == SpaceStatus.AVAILABLE)).length
      + (l.filter (fun p => p.status == SpaceStatus.MAINTENANCE)).length
      = l.length := by
  induction l with
  | nil => rfl
  | cons p t ih =>
    cases hp : p.status <;> simp [List.filter_cons, hp] <;> omega

/-- `POST /api/rentals` rejects with 400 when the space is not AVAILABLE
(in-memory backend). -/
theorem apiCreateRental_unavailable (s : MemState) (body : InsertRental)
    (sp : ParkingSpace)
    (hfind : MemStorage.getParkingSpaceById s body.parkingSpaceId = some sp)
    (hne : sp.status ≠ SpaceStatus.AVAILABLE) :
    Routes.apiCreateRental s body =
      (ApiOutcome.err 400 "車位不可用 / Parking space is not available", s) := by
  unfold Routes.apiCreateRental
  rw [hfind]
  simp [hne]

/-- `POST /api/rentals` rejects with 400 when the space is not AVAILABLE
(database backend). -/
theorem apiCreateRentalDb_unavailable (s : MemState) (body : InsertRental)
    (sp : ParkingSpace)
    (hfind : DatabaseStorage.getParkingSpaceById s body.parkingSpaceId = some sp)
    (hne : sp.status ≠ SpaceStatus.AVAILABLE) :
    Routes.apiCreateRentalDb s body =
      (ApiOutcome.err 400 "車位不可用 / Parking space is not available", s) := by
  unfold Routes.apiCreateRentalDb
  rw [hfind]
  simp [hne]

/-- The offers route rejects with 400 when the request is not PENDING. -/
theorem apiCreateParkingOffer_nonpending (s : MemState) (requestId : Nat)
    (body : Routes.ParkingOfferBody) (req : RentalRequest)
    (hfind : MemStorage.getRentalRequestById s requestId = some req)
    (hstatus : req.status ≠ RequestStatus.PENDING) :
    Routes.apiCreateParkingOffer s requestId body =
      (ApiOutcome.err 400
        "租借申請不再接受新的報價 / Rental request is no longer accepting offers", s) := by
  unfold Routes.apiCreateParkingOffer
  rw [hfind]
  simp [hstatus]

/-- The storage layer refuses to delete a space referenced by an active
rental and leaves the state untouched. -/
theorem deleteParkingSpace_blocked (s : MemState) (id : Nat)
    (h : ∃ r ∈ s.rentals, r.parkingSpaceId = id ∧ r.isActive = true) :
    MemStorage.deleteParkingSpace s id = (false, s) := by
  obtain ⟨r, hr, hrid, hact⟩ := h
  unfold MemStorage.deleteParkingSpace
  cases hfind : MemStorage.getParkingSpaceById s id with
  | none => rfl
  | some space =>
    have hany : (MemStorage.getRentalsByParkingSpaceId s id).any
        (fun r => r.isActive) = true := by
      rw [List.any_eq_true]
      refine ⟨r, ?_, hact⟩
      simp only [MemStorage.getRentalsByParkingSpaceId, List.mem_filter]
      exact ⟨hr, by simp [hrid]⟩
    simp [hany]

/-- The storage layer refuses to delete a household referenced by an
active rental and leaves the state untouched. -/
theorem deleteHousehold_blocked (s : MemState) (id : Nat)
    (h : ∃ r ∈ s.rentals, r.householdId = id ∧ r.isActive = true) :
    MemStorage.deleteHousehold s id = (false, s) := by
  obtain ⟨r, hr, hrid, hact⟩ := h
  unfold MemStorage.deleteHousehold
  cases hfind : MemStorage.getHouseholdById s id with
  | none => rfl
  | some household =>
    have hany : (MemStorage.getRentalsByHouseholdId s id).any
        (fun r => r.isActive) = true := by
      rw [List.any_eq_true]
      refine ⟨r, ?_, hact⟩
      simp only [MemStorage.getRentalsByHouseholdId, List.mem_filter]
      exact ⟨hr, by simp [hrid]⟩
    simp [hany]

/-- A blocked space delete surfaces as a 404 at the route. -/
theorem apiDeleteParkingSpace_blocked (s : MemState) (id : Nat)
    (h : ∃ r ∈ s.rentals, r.parkingSpaceId = id ∧ r.isActive = true) :
    Routes.apiDeleteParkingSpace s id =
      (ApiOutcome.err 404 "Parking space not found or cannot be deleted", s) := by
  unfold Routes.apiDeleteParkingSpace
  rw [deleteParkingSpace_blocked s id h]
  rfl

/-- A blocked household delete surfaces as a 404 at the route. -/
theorem apiDeleteHousehold_blocked (s : MemState) (id : Nat)
    (h : ∃ r ∈ s.rentals, r.householdId = id ∧ r.isActive = true) :
    Routes.apiDeleteHousehold s id =
      (ApiOutcome.err 404 "Household not found or cannot be deleted", s) := by
  unfold Routes.apiDeleteHousehold
  rw [deleteHousehold_blocked s id h]
  rfl

/-- **C1, counterexample.** On the in-memory backend the claimed
invariant fails on a reachable state: rent space 1, end the rental, rent
the space again, then replay the first end-rental request.  The replayed
request completes with HTTP 200, yet it flips the space back to
AVAILABLE while the second rental is still active, so afterwards no
space-status/active-rental correspondence holds. -/
theorem c1_occupied_iff_active_fails_on_stale_end :
    spaceOccupiedIffActiveRental baseState ∧
      (Routes.apiEndRental (runOps baseState (staleEndOps.take 3)) 1).1 =
        ApiOutcome.ok 200 "Rental ended successfully" ∧
      ¬ spaceOccupiedIffActiveRental (runOps baseState staleEndOps) := by
  decide

/-- **C2.** The claim matches `DatabaseStorage.endRental` but
`MemStorage.endRental` has no `isActive` guard: on a rental that was
already ended (its space since re-rented and OCCUPIED), the second call
returns success, appends another RENTAL_ENDED log entry, and resets the
space to AVAILABLE, while the database variant refuses and changes
nothing. -/
theorem c2_stale_end_not_rejected_mem :
    (MemStorage.endRental staleEndState 1).1 = true ∧
      (Routes.apiEndRental staleEndState 1).1 =
        ApiOutcome.ok 200 "Rental ended successfully" ∧
      countRentalEnded (MemStorage.endRental staleEndState 1).2 =
        countRentalEnded staleEndState + 1 ∧
      (MemStorage.getParkingSpaceById staleEndState 1).map (fun p => p.status) =
        some SpaceStatus.OCCUPIED ∧
      (MemStorage.getParkingSpaceById (MemStorage.endRental staleEndState 1).2 1).map
          (fun p => p.status) = some SpaceStatus.AVAILABLE ∧
      DatabaseStorage.endRental staleEndState 1 = (false, staleEndState) := by
  decide

/-- **C3, counterexample.** A successful `createRental` on the in-memory
backend appends two ActivityLog rows, not one: the SPACE_UPDATED row
written by the internal `updateParkingSpace` call and the RENTAL_CREATED
row. -/
theorem c3_createRental_two_logs :
    (Routes.apiCreateRental baseState rentalBody).1 =
        ApiOutcome.ok 201 (MemStorage.createRental baseState rentalBody).1 ∧
      (Routes.apiCreateRental baseState rentalBody).2.activityLogs.map
          (fun l => l.activityType) = ["SPACE_UPDATED", "RENTAL_CREATED"] ∧
      (Routes.apiCreateRental baseState rentalBody).2.activityLogs.length =
        baseState.activityLogs.length + 2 := by
  decide

/-- **C4.** Creating a rental against a space whose status is OCCUPIED
or MAINTENANCE fails with HTTP 400 and leaves the state — in particular
the rentals and the activity log — untouched, on both backends. -/
theorem c4_createRental_unavailable_rejected (s : MemState)
    (body : InsertRental) (sp : ParkingSpace)
    (hfind : MemStorage.getParkingSpaceById s body.parkingSpaceId = some sp)
    (hstatus : sp.status = SpaceStatus.OCCUPIED ∨ sp.status = SpaceStatus.MAINTENANCE) :
    Routes.apiCreateRental s body =
        (ApiOutcome.err 400 "車位不可用 / Parking space is not available", s) ∧
      Routes.apiCreateRentalDb s body =
        (ApiOutcome.err 400 "車位不可用 / Parking space is not available", s) := by
  have hne : sp.status ≠ SpaceStatus.AVAILABLE := by
    rcases hstatus with h | h <;> simp [h]
  exact ⟨apiCreateRental_unavailable s body sp hfind hne,
    apiCreateRentalDb_unavailable s body sp hfind hne⟩

/-- **C4, witness.** -/
theorem c4_witness :
    Routes.apiCreateRental occupiedState rentalBody =
      (ApiOutcome.err 400 "車位不可用 / Parking space is not available",
        occupiedState) :=
  (c4_createRental_unavailable_rejected occupiedState rentalBody
    spaceA01Occupied (by decide) (by decide)).1

/-- **C5.** Creating a parking offer against a request whose status is
not PENDING (in particular MATCHED) fails with HTTP 400 and leaves the
state — the request's status and the offers — untouched. -/
theorem c5_offer_nonpending_rejected (s : MemState) (requestId : Nat)
    (body : Routes.ParkingOfferBody) (req : RentalRequest)
    (hfind : MemStorage.getRentalRequestById s requestId = some req)
    (hstatus : req.status ≠ RequestStatus.PENDING) :
    Routes.apiCreateParkingOffer s requestId body =
      (ApiOutcome.err 400
        "租借申請不再接受新的報價 / Rental request is no longer accepting offers", s) :=
  apiCreateParkingOffer_nonpending s requestId body req hfind hstatus

/-- **C5, witness.** -/
theorem c5_witness :
    Routes.apiCreateParkingOffer matchedRequestState 1 offerBody =
      (ApiOutcome.err 400
        "租借申請不再接受新的報價 / Rental request is no longer accepting offers",
        matchedRequestState) :=
  c5_offer_nonpending_rejected matchedRequestState 1 offerBody matchedRequest
    (by decide) (by decide)

/-- **C6, counterexample.** A delete blocked by an active rental is
reported as HTTP 404, not the claimed 400: the route maps the storage
layer's `false` to the same 404 it uses for a missing id. -/
theorem c6_blocked_delete_returns_404 :
    (∃ r ∈ occupiedState.rentals, r.parkingSpaceId = 1 ∧ r.isActive = true) ∧
      (MemStorage.getParkingSpaceById occupiedState 1).isSome = true ∧
      Routes.apiDeleteParkingSpace occupiedState 1 =
        (ApiOutcome.err 404 "Parking space not found or cannot be deleted",
          occupiedState) := by
  decide

/-- **C6, amended.** createRental on a space that is not AVAILABLE and
createParkingOffer on a request that is not PENDING are rejected with
HTTP 400 and a descriptive message; a delete blocked by an active
reference is rejected with HTTP 404, the same status the route uses for
a missing id. -/
theorem c6_error_statuses :
    (∀ (s : MemState) (body : InsertRental) (sp : ParkingSpace),
        MemStorage.getParkingSpaceById s body.parkingSpaceId = some sp →
        sp.status ≠ SpaceStatus.AVAILABLE →
        Routes.apiCreateRental s body =
          (ApiOutcome.err 400 "車位不可用 / Parking space is not available", s)) ∧
      (∀ (s : MemState) (requestId : Nat) (body : Routes.ParkingOfferBody)
          (req : RentalRequest),
        MemStorage.getRentalRequestById s requestId = some req →
        req.status ≠ RequestStatus.PENDING →
        Routes.apiCreateParkingOffer s requestId body =
          (ApiOutcome.err 400
            "租借申請不再接受新的報價 / Rental request is no longer accepting offers", s)) ∧
      (∀ (s : MemState) (id : Nat),
        (∃ r ∈ s.rentals, r.parkingSpaceId = id ∧ r.isActive = true) →
        Routes.apiDeleteParkingSpace s id =
          (ApiOutcome.err 404 "Parking space not found or cannot be deleted", s)) ∧
      (∀ (s : MemState) (id : Nat),
        (∃ r ∈ s.rentals, r.householdId = id ∧ r.isActive = true) →
        Routes.apiDeleteHousehold s id =
          (ApiOutcome.err 404 "Household not found or cannot be deleted", s)) :=
  ⟨apiCreateRental_unavailable, apiCreateParkingOffer_nonpending,
    apiDeleteParkingSpace_blocked, apiDeleteHousehold_blocked⟩

/-- **C6, witness.** -/
theorem c6_witness :
    Routes.apiDeleteParkingSpace occupiedState 1 =
      (ApiOutcome.err 404 "Parking space not found or cannot be deleted",
        occupiedState) :=
  c6_error_statuses.2.2.1 occupiedState 1
    ⟨activeRental2, by decide, by decide, by decide⟩

/-- **C7.** Deleting a ParkingSpace or Household referenced by an active
rental returns `false` and leaves the store — in particular the record —
unchanged. -/
theorem c7_delete_blocked_by_active_rental (s : MemState) (id : Nat) :
    ((∃ r ∈ s.rentals, r.parkingSpaceId = id ∧ r.isActive = true) →
        MemStorage.deleteParkingSpace s id = (false, s)) ∧
      ((∃ r ∈ s.rentals, r.householdId = id ∧ r.isActive = true) →
        MemStorage.deleteHousehold s id = (false, s)) :=
  ⟨deleteParkingSpace_blocked s id, deleteHousehold_blocked s id⟩

/-- **C7, witness.** -/
theorem c7_witness :
    MemStorage.deleteParkingSpace occupiedState 1 = (false, occupiedState) :=
  (c7_delete_blocked_by_active_rental occupiedState 1).1
    ⟨activeRental2, by decide, by decide, by decide⟩

/-- **C8.** `getExpiringRentals` returns exactly the active rentals whose
end date lies in the inclusive window from today to today plus the
threshold, and the route's missing `days` parameter defaults the
threshold to 7. -/
theorem c8_expiring_rentals_characterization (s : MemState) (n : Int) :
    (∀ r : Rental,
        r ∈ MemStorage.getExpiringRentals s n ↔
          r ∈ s.rentals ∧ r.isActive = true ∧
            s.now ≤ r.endDate ∧ r.endDate ≤ s.now + n) ∧
      Routes.apiGetExpiringRentals s none = MemStorage.getExpiringRentals s 7 := by
  refine ⟨fun r => ?_, rfl⟩
  unfold MemStorage.getExpiringRentals
  simp only [List.mem_filter, Bool.and_eq_true, decide_eq_true_eq]
  tauto

/-- **C9.** In the dashboard aggregate the occupied, available, and
maintenance counts always sum to the total number of spaces, on both
backends. -/
theorem c9_dashboard_stats_partition (s : MemState) :
    (MemStorage.getDashboardStats s).occupiedSpaces
        + (MemStorage.getDashboardStats s).availableSpaces
        + (MemStorage.getDashboardStats s).maintenanceSpaces
        = (MemStorage.getDashboardStats s).totalSpaces ∧
      (DatabaseStorage.getDashboardStats s).occupiedSpaces
        + (DatabaseStorage.getDashboardStats s).availableSpaces
        + (DatabaseStorage.getDashboardStats s).maintenanceSpaces
        = (DatabaseStorage.getDashboardStats s).totalSpaces := by
  constructor
  · simpa [MemStorage.getDashboardStats] using
      parkingSpaces_status_partition s.parkingSpaces
  · simpa [DatabaseStorage.getDashboardStats, List.countP_eq_length_filter] using
      parkingSpaces_status_partition s.parkingSpaces

/- Helper lemmas about `createActivityLog`. -/

theorem memLog_parkingSpaces (s : MemState) (log : InsertActivityLog) :
    (MemStorage.createActivityLog s log).2.parkingSpaces = s.parkingSpaces := rfl

theorem memLog_households (s : MemState) (log : InsertActivityLog) :
    (MemStorage.createActivityLog s log).2.households = s.households := rfl

theorem memLog_rentals (s : MemState) (log : InsertActivityLog) :
    (MemStorage.createActivityLog s log).2.rentals = s.rentals := rfl

theorem memLog_rentalCurrentId (s : MemState) (log : InsertActivityLog) :
    (MemStorage.createActivityLog s log).2.rentalCurrentId = s.rentalCurrentId := rfl

theorem memLog_counter (s : MemState) (log : InsertActivityLog) :
    (MemStorage.createActivityLog s log).2.activityLogCurrentId =
      s.activityLogCurrentId + 1 := rfl

theorem memLog_id (s : MemState) (log : InsertActivityLog) :
    (MemStorage.createActivityLog s log).1.id = s.activityLogCurrentId := rfl

/-- With a fresh counter, `MemStorage.createActivityLog` appends one row
(the `Map.set` call cannot hit an existing key). -/
theorem memLog_appends (s : MemState) (log : InsertActivityLog)
    (h : logIdsFresh s) :
    (MemStorage.createActivityLog s log).2.activityLogs =
      s.activityLogs ++ [(MemStorage.createActivityLog s log).1] := by
  have hno : s.activityLogs.any (fun l => l.id == s.activityLogCurrentId) = false := by
    rw [List.any_eq_false]
    intro l hl
    simp [Nat.ne_of_lt (h l hl)]
  show mapSet s.activityLogs _ _ = _
  rw [mapSet, hno]
  simp
  rfl

theorem memLog_length (s : MemState) (log : InsertActivityLog)
    (h : logIdsFresh s) :
    (MemStorage.createActivityLog s log).2.activityLogs.length =
      s.activityLogs.length + 1 := by
  rw [memLog_appends s log h]
  simp

theorem memLog_fresh (s : MemState) (log : InsertActivityLog)
    (h : logIdsFresh s) :
    logIdsFresh (MemStorage.createActivityLog s log).2 := by
  intro l hl
  rw [memLog_appends s log h] at hl
  rw [memLog_counter]
  rcases List.mem_append.mp hl with h1 | h1
  · exact Nat.lt_succ_of_lt (h l h1)
  · rw [List.mem_singleton.mp h1, memLog_id]
    exact Nat.lt_succ_self _

theorem dbLog_length (s : MemState) (log : InsertActivityLog) :
    (DatabaseStorage.createActivityLog s log).2.activityLogs.length =
      s.activityLogs.length + 1 := by
  show (s.activityLogs ++ [_]).length = _
  simp

theorem mapSet_of_any {α : Type} (l : List α) (hit : α → Bool) (v : α)
    (h : l.any hit = true) :
    mapSet l hit v = l.map (fun x => if hit x then v else x) := by
  simp [mapSet, h]

theorem memCreateSpace_one_log (s : MemState) (x : InsertParkingSpace)
    (hlog : logIdsFresh s) :
    (MemStorage.createParkingSpace s x).2.activityLogs.length =
      s.activityLogs.length + 1 := by
  unfold MemStorage.createParkingSpace
  refine memLog_length _ _ ?_
  exact hlog

theorem memCreateHousehold_one_log (s : MemState) (x : InsertHousehold)
    (hlog : logIdsFresh s) :
    (MemStorage.createHousehold s x).2.activityLogs.length =
      s.activityLogs.length + 1 := by
  unfold MemStorage.createHousehold
  refine memLog_length _ _ ?_
  exact hlog

theorem memUpdateSpace_one_log (s : MemState) (id : Nat) (p : SpacePatch)
    (sp : ParkingSpace) (hfind : MemStorage.getParkingSpaceById s id = some sp)
    (hlog : logIdsFresh s) :
    (MemStorage.updateParkingSpace s id p).2.activityLogs.length =
      s.activityLogs.length + 1 := by
  unfold MemStorage.updateParkingSpace
  rw [hfind]
  exact memLog_length _ _ hlog

theorem memUpdateRental_one_log (s : MemState) (id : Nat) (p : RentalPatch)
    (r : Rental) (hfind : MemStorage.getRentalById s id = some r)
    (hlog : logIdsFresh s) :
    (MemStorage.updateRental s id p).2.activityLogs.length =
      s.activityLogs.length + 1 := by
  unfold MemStorage.updateRental
  rw [hfind]
  refine memLog_length _ _ ?_
  exact hlog

theorem memDeleteSpace_one_log (s : MemState) (id : Nat) (sp : ParkingSpace)
    (hfind : MemStorage.getParkingSpaceById s id = some sp)
    (hnoact : (MemStorage.getRentalsByParkingSpaceId s id).any
      (fun r => r.isActive) = false)
    (hlog : logIdsFresh s) :
    (MemStorage.deleteParkingSpace s id).2.activityLogs.length =
      s.activityLogs.length + 1 := by
  have hany : s.parkingSpaces.any (fun p => p.id == id) = true :=
    any_of_find?_eq_some hfind
  unfold MemStorage.deleteParkingSpace
  rw [hfind]
  simp only [hnoact, mapDelete, hany, Bool.false_eq_true, if_false, if_true]
  refine memLog_length _ _ ?_
  exact hlog

theorem memDeleteHousehold_one_log (s : MemState) (id : Nat) (h : Household)
    (hfind : MemStorage.getHouseholdById s id = some h)
    (hnoact : (MemStorage.getRentalsByHouseholdId s id).any
      (fun r => r.isActive) = false)
    (hlog : logIdsFresh s) :
    (MemStorage.deleteHousehold s id).2.activityLogs.length =
      s.activityLogs.length + 1 := by
  have hany : s.households.any (fun x => x.id == id) = true :=
    any_of_find?_eq_some hfind
  unfold MemStorage.deleteHousehold
  rw [hfind]
  simp only [hnoact, mapDelete, hany, Bool.false_eq_true, if_false, if_true]
  refine memLog_length _ _ ?_
  exact hlog

theorem memCreateRental_two_logs (s : MemState) (body : InsertRental)
    (sp : ParkingSpace)
    (hfind : MemStorage.getParkingSpaceById s body.parkingSpaceId = some sp)
    (hlog : logIdsFresh s) :
    (MemStorage.createRental s body).2.activityLogs.length =
      s.activityLogs.length + 2 := by
  unfold MemStorage.createRental
  simp only [MemStorage.updateParkingSpace]
  split
  next x sp2 heq =>
    split
    next heq2 =>
      exfalso
      have h1 : MemStorage.getParkingSpaceById s body.parkingSpaceId = some sp2 := heq
      have hid : sp2.id = body.parkingSpaceId := by simpa using List.find?_some h1
      have h2 : MemStorage.getParkingSpaceById s sp2.id = none := heq2
      rw [hid, h1] at h2
      exact Option.noConfusion h2
    next existingSpace heq2 =>
      refine Eq.trans (memLog_length _ _ ?_) ?_
      · refine memLog_fresh _ _ ?_
        exact hlog
      · refine Eq.trans (congrArg (fun n => n + 1) (memLog_length _ _ ?_)) ?_
        · exact hlog
        · rfl
  next x heq =>
    have h1 : MemStorage.getParkingSpaceById s body.parkingSpaceId = none := heq
    rw [h1] at hfind
    exact Option.noConfusion hfind

theorem memEndRental_two_logs (s : MemState) (id : Nat) (r : Rental)
    (sp : ParkingSpace)
    (hfr : MemStorage.getRentalById s id = some r)
    (hfs : MemStorage.getParkingSpaceById s r.parkingSpaceId = some sp)
    (hlog : logIdsFresh s) :
    (MemStorage.endRental s id).2.activityLogs.length =
      s.activityLogs.length + 2 := by
  unfold MemStorage.endRental
  rw [hfr]
  simp only [MemStorage.updateParkingSpace]
  split
  next x sp2 heq =>
    split
    next heq2 =>
      exfalso
      have h1 : MemStorage.getParkingSpaceById s r.parkingSpaceId = some sp2 := heq
      have hid : sp2.id = r.parkingSpaceId := by simpa using List.find?_some h1
      have h2 : MemStorage.getParkingSpaceById s sp2.id = none := heq2
      rw [hid, h1] at h2
      exact Option.noConfusion h2
    next existingSpace heq2 =>
      refine Eq.trans (memLog_length _ _ ?_) ?_
      · refine memLog_fresh _ _ ?_
        exact hlog
      · refine Eq.trans (congrArg (fun n => n + 1) (memLog_length _ _ ?_)) ?_
        · exact hlog
        · rfl
  next x heq =>
    have h1 : MemStorage.getParkingSpaceById s r.parkingSpaceId = none := heq
    rw [h1] at hfs
    exact Option.noConfusion hfs

theorem dbCreateRental_one_log (s : MemState) (body : InsertRental) :
    (DatabaseStorage.createRental s body).2.activityLogs.length =
      s.activityLogs.length + 1 := by
  unfold DatabaseStorage.createRental
  exact dbLog_length _ _

theorem dbEndRental_one_log (s : MemState) (id : Nat) (r : Rental)
    (hfind : s.rentals.find? (fun x => x.id == id) = some r)
    (hact : r.isActive = true) :
    (DatabaseStorage.endRental s id).2.activityLogs.length =
      s.activityLogs.length + 1 := by
  have hany : s.rentals.any (fun x => x.id == id) = true :=
    any_of_find?_eq_some hfind
  unfold DatabaseStorage.endRental
  rw [hfind]
  simp only [hact, Bool.true_eq_false, if_false, hany, if_true]
  exact dbLog_length _ _

theorem memUpdateHousehold_one_log (s : MemState) (id : Nat) (p : HouseholdPatch)
    (h : Household) (hfind : MemStorage.getHouseholdById s id = some h)
    (hlog : logIdsFresh s) :
    (MemStorage.updateHousehold s id p).2.activityLogs.length =
      s.activityLogs.length + 1 := by
  unfold MemStorage.updateHousehold
  rw [hfind]
  refine memLog_length _ _ ?_
  exact hlog

theorem memCreateRental_missing_space_one_log (s : MemState) (body : InsertRental)
    (hnone : MemStorage.getParkingSpaceById s body.parkingSpaceId = none)
    (hlog : logIdsFresh s) :
    (MemStorage.createRental s body).2.activityLogs.length =
      s.activityLogs.length + 1 := by
  unfold MemStorage.createRental
  dsimp only
  split
  next sp2 heq =>
    exfalso
    have h1 : MemStorage.getParkingSpaceById s body.parkingSpaceId = some sp2 := heq
    rw [hnone] at h1
    exact Option.noConfusion h1
  next heq =>
    refine memLog_length _ _ ?_
    exact hlog

theorem memEndRental_missing_space_no_log (s : MemState) (id : Nat) (r : Rental)
    (hfr : MemStorage.getRentalById s id = some r)
    (hnone : MemStorage.getParkingSpaceById s r.parkingSpaceId = none) :
    (MemStorage.endRental s id).1 = true ∧
      (MemStorage.endRental s id).2.activityLogs.length =
        s.activityLogs.length := by
  unfold MemStorage.endRental
  rw [hfr]
  dsimp only
  split
  next sp2 heq =>
    exfalso
    have h1 : MemStorage.getParkingSpaceById s r.parkingSpaceId = some sp2 := heq
    rw [hnone] at h1
    exact Option.noConfusion h1
  next heq =>
    exact ⟨rfl, rfl⟩

theorem dbCreateSpace_one_log (s : MemState) (x : InsertParkingSpace) :
    (DatabaseStorage.createParkingSpace s x).2.activityLogs.length =
      s.activityLogs.length + 1 := by
  unfold DatabaseStorage.createParkingSpace
  exact dbLog_length _ _

theorem dbUpdateSpace_one_log (s : MemState) (id : Nat) (p : SpacePatch)
    (sp : ParkingSpace)
    (hfind : s.parkingSpaces.find? (fun x => x.id == id) = some sp) :
    (DatabaseStorage.updateParkingSpace s id p).2.activityLogs.length =
      s.activityLogs.length + 1 := by
  unfold DatabaseStorage.updateParkingSpace
  rw [hfind]
  simp only [Option.map_some']
  exact dbLog_length _ _

theorem dbDeleteSpace_one_log (s : MemState) (id : Nat) (sp : ParkingSpace)
    (hfind : s.parkingSpaces.find? (fun x => x.id == id) = some sp)
    (hnoact : (DatabaseStorage.getRentalsByParkingSpaceId s id).any
      (fun r => r.isActive) = false) :
    (DatabaseStorage.deleteParkingSpace s id).2.activityLogs.length =
      s.activityLogs.length + 1 := by
  have hpos : s.parkingSpaces.countP (fun p => p.id == id) > 0 := by
    refine List.countP_pos_iff.mpr ⟨sp, List.mem_of_find?_eq_some hfind, ?_⟩
    have hp := List.find?_some hfind
    exact hp
  unfold DatabaseStorage.deleteParkingSpace
  rw [hfind]
  simp only [hnoact, Bool.false_eq_true, if_false]
  rw [if_pos hpos]
  exact dbLog_length _ _

theorem dbCreateHousehold_one_log (s : MemState) (x : InsertHousehold) :
    (DatabaseStorage.createHousehold s x).2.activityLogs.length =
      s.activityLogs.length + 1 := by
  unfold DatabaseStorage.createHousehold
  exact dbLog_length _ _

theorem dbUpdateHousehold_one_log (s : MemState) (id : Nat) (p : HouseholdPatch)
    (h : Household)
    (hfind : s.households.find? (fun x => x.id == id) = some h) :
    (DatabaseStorage.updateHousehold s id p).2.activityLogs.length =
      s.activityLogs.length + 1 := by
  unfold DatabaseStorage.updateHousehold
  rw [hfind]
  simp only [Option.map_some']
  exact dbLog_length _ _

theorem dbDeleteHousehold_one_log (s : MemState) (id : Nat) (h : Household)
    (hfind : s.households.find? (fun x => x.id == id) = some h)
    (hnoact : (DatabaseStorage.getRentalsByHouseholdId s id).any
      (fun r => r.isActive) = false) :
    (DatabaseStorage.deleteHousehold s id).2.activityLogs.length =
      s.activityLogs.length + 1 := by
  have hpos : s.households.countP (fun x => x.id == id) > 0 := by
    refine List.countP_pos_iff.mpr ⟨h, List.mem_of_find?_eq_some hfind, ?_⟩
    have hp := List.find?_some hfind
    exact hp
  unfold DatabaseStorage.deleteHousehold
  rw [hfind]
  simp only [hnoact, Bool.false_eq_true, if_false]
  rw [if_pos hpos]
  exact dbLog_length _ _

theorem dbUpdateRental_one_log (s : MemState) (id : Nat) (p : RentalPatch)
    (r : Rental)
    (hfind : s.rentals.find? (fun x => x.id == id) = some r) :
    (DatabaseStorage.updateRental s id p).2.activityLogs.length =
      s.activityLogs.length + 1 := by
  unfold DatabaseStorage.updateRental
  rw [hfind]
  simp only [Option.map_some']
  exact dbLog_length _ _

/-- **C3, amended.** Every successful create, update, or delete against
ParkingSpace, Household, or Rental appends exactly one ActivityLog row,
on both backends, with two exceptions in the in-memory backend: its
`createRental` and `endRental` with an existing referenced space append
two rows (the SPACE_UPDATED row logged by their internal
`updateParkingSpace` call plus their own RENTAL_CREATED/RENTAL_ENDED
row), and a successful `endRental` whose referenced space is missing
returns true yet appends no row at all.  The database backend's
`createRental` and `endRental` update the space directly in SQL and
append exactly one row. -/
theorem c3_activity_log_counts (s : MemState) (hlog : logIdsFresh s) :
    (∀ x : InsertParkingSpace,
        (MemStorage.createParkingSpace s x).2.activityLogs.length =
          s.activityLogs.length + 1) ∧
      (∀ x : InsertHousehold,
        (MemStorage.createHousehold s x).2.activityLogs.length =
          s.activityLogs.length + 1) ∧
      (∀ (id : Nat) (p : SpacePatch) (sp : ParkingSpace),
        MemStorage.getParkingSpaceById s id = some sp →
        (MemStorage.updateParkingSpace s id p).2.activityLogs.length =
          s.activityLogs.length + 1) ∧
      (∀ (id : Nat) (p : RentalPatch) (r : Rental),
        MemStorage.getRentalById s id = some r →
        (MemStorage.updateRental s id p).2.activityLogs.length =
          s.activityLogs.length + 1) ∧
      (∀ (id : Nat) (sp : ParkingSpace),
        MemStorage.getParkingSpaceById s id = some sp →
        (MemStorage.getRentalsByParkingSpaceId s id).any
          (fun r => r.isActive) = false →
        (MemStorage.deleteParkingSpace s id).2.activityLogs.length =
          s.activityLogs.length + 1) ∧
      (∀ (id : Nat) (h : Household),
        MemStorage.getHouseholdById s id = some h →
        (MemStorage.getRentalsByHouseholdId s id).any
          (fun r => r.isActive) = false →
        (MemStorage.deleteHousehold s id).2.activityLogs.length =
          s.activityLogs.length + 1) ∧
      (∀ (body : InsertRental) (sp : ParkingSpace),
        MemStorage.getParkingSpaceById s body.parkingSpaceId = some sp →
        (MemStorage.createRental s body).2.activityLogs.length =
          s.activityLogs.length + 2) ∧
      (∀ (id : Nat) (r : Rental) (sp : ParkingSpace),
        MemStorage.getRentalById s id = some r →
        MemStorage.getParkingSpaceById s r.parkingSpaceId = some sp →
        (MemStorage.endRental s id).2.activityLogs.length =
          s.activityLogs.length + 2) ∧
      (∀ body : InsertRental,
        (DatabaseStorage.createRental s body).2.activityLogs.length =
          s.activityLogs.length + 1) ∧
      (∀ (id : Nat) (r : Rental),
        s.rentals.find? (fun x => x.id == id) = some r → r.isActive = true →
        (DatabaseStorage.endRental s id).2.activityLogs.length =
          s.activityLogs.length + 1) ∧
      (∀ (id : Nat) (p : HouseholdPatch) (h : Household),
        MemStorage.getHouseholdById s id = some h →
        (MemStorage.updateHousehold s id p).2.activityLogs.length =
          s.activityLogs.length + 1) ∧
      (∀ body : InsertRental,
        MemStorage.getParkingSpaceById s body.parkingSpaceId = none →
        (MemStorage.createRental s body).2.activityLogs.length =
          s.activityLogs.length + 1) ∧
      (∀ (id : Nat) (r : Rental),
        MemStorage.getRentalById s id = some r →
        MemStorage.getParkingSpaceById s r.parkingSpaceId = none →
        (MemStorage.endRental s id).1 = true ∧
          (MemStorage.endRental s id).2.activityLogs.length =
            s.activityLogs.length) ∧
      (∀ x : InsertParkingSpace,
        (DatabaseStorage.createParkingSpace s x).2.activityLogs.length =
          s.activityLogs.length + 1) ∧
      (∀ (id : Nat) (p : SpacePatch) (sp : ParkingSpace),
        s.parkingSpaces.find? (fun x => x.id == id) = some sp →
        (DatabaseStorage.updateParkingSpace s id p).2.activityLogs.length =
          s.activityLogs.length + 1) ∧
      (∀ (id : Nat) (sp : ParkingSpace),
        s.parkingSpaces.find? (fun x => x.id == id) = some sp →
        (DatabaseStorage.getRentalsByParkingSpaceId s id).any
          (fun r => r.isActive) = false →
        (DatabaseStorage.deleteParkingSpace s id).2.activityLogs.length =
          s.activityLogs.length + 1) ∧
      (∀ x : InsertHousehold,
        (DatabaseStorage.createHousehold s x).2.activityLogs.length =
          s.activityLogs.length + 1) ∧
      (∀ (id : Nat) (p : HouseholdPatch) (h : Household),
        s.households.find? (fun x => x.id == id) = some h →
        (DatabaseStorage.updateHousehold s id p).2.activityLogs.length =
          s.activityLogs.length + 1) ∧
      (∀ (id : Nat) (h : Household),
        s.households.find? (fun x => x.id == id) = some h →
        (DatabaseStorage.getRentalsByHouseholdId s id).any
          (fun r => r.isActive) = false →
        (DatabaseStorage.deleteHousehold s id).2.activityLogs.length =
          s.activityLogs.length + 1) ∧
      (∀ (id : Nat) (p : RentalPatch) (r : Rental),
        s.rentals.find? (fun x => x.id == id) = some r →
        (DatabaseStorage.updateRental s id p).2.activityLogs.length =
          s.activityLogs.length + 1) :=
  ⟨fun x => memCreateSpace_one_log s x hlog,
    fun x => memCreateHousehold_one_log s x hlog,
    fun id p sp h => memUpdateSpace_one_log s id p sp h hlog,
    fun id p r h => memUpdateRental_one_log s id p r h hlog,
    fun id sp h hn => memDeleteSpace_one_log s id sp h hn hlog,
    fun id h hf hn => memDeleteHousehold_one_log s id h hf hn hlog,
    fun body sp h => memCreateRental_two_logs s body sp h hlog,
    fun id r sp h1 h2 => memEndRental_two_logs s id r sp h1 h2 hlog,
    fun body => dbCreateRental_one_log s body,
    fun id r h1 h2 => dbEndRental_one_log s id r h1 h2,
    fun id p h hf => memUpdateHousehold_one_log s id p h hf hlog,
    fun body hn => memCreateRental_missing_space_one_log s body hn hlog,
    fun id r h1 h2 => memEndRental_missing_space_no_log s id r h1 h2,
    fun x => dbCreateSpace_one_log s x,
    fun id p sp hf => dbUpdateSpace_one_log s id p sp hf,
    fun id sp hf hn => dbDeleteSpace_one_log s id sp hf hn,
    fun x => dbCreateHousehold_one_log s x,
    fun id p h hf => dbUpdateHousehold_one_log s id p h hf,
    fun id h hf hn => dbDeleteHousehold_one_log s id h hf hn,
    fun id p r hf => dbUpdateRental_one_log s id p r hf⟩

/-- **C3, witness.** The in-memory `createRental` appends two rows, the
database `createRental` one, and a successful in-memory `endRental` on a
rental whose space is missing appends none. -/
theorem c3_witness :
    (MemStorage.createRental baseState rentalBody).2.activityLogs.length =
        baseState.activityLogs.length + 2 ∧
      (DatabaseStorage.createRental baseState rentalBody).2.activityLogs.length =
        baseState.activityLogs.length + 1 ∧
      (MemStorage.endRental orphanRentalState 1).2.activityLogs.length =
        orphanRentalState.activityLogs.length :=
  ⟨(c3_activity_log_counts baseState (by decide)).2.2.2.2.2.2.1 rentalBody
      spaceA01 (by decide),
    (c3_activity_log_counts baseState (by decide)).2.2.2.2.2.2.2.2.1 rentalBody,
    ((c3_activity_log_counts orphanRentalState
        (by decide)).2.2.2.2.2.2.2.2.2.2.2.2.1 1 orphanRental
      (by decide) (by decide)).2⟩

/-- **C10.** `updateRental` on an existing rental changes only that
rental record (merging the patch), appends exactly one ActivityLog
entry, and leaves every ParkingSpace — and every Household — unchanged,
on both backends; in particular a patch with `isActive := false` does
not free the rental's space. -/
theorem c10_updateRental_frame (s : MemState) (id : Nat) (patch : RentalPatch)
    (r : Rental) (hfind : MemStorage.getRentalById s id = some r)
    (hlog : logIdsFresh s) :
    (MemStorage.updateRental s id patch).2.parkingSpaces = s.parkingSpaces ∧
      (MemStorage.updateRental s id patch).2.households = s.households ∧
      (MemStorage.updateRental s id patch).2.rentals =
        s.rentals.map (fun x => if x.id == id then mergeRental r patch else x) ∧
      (MemStorage.updateRental s id patch).2.activityLogs.length =
        s.activityLogs.length + 1 ∧
      (DatabaseStorage.updateRental s id patch).2.parkingSpaces = s.parkingSpaces ∧
      (DatabaseStorage.updateRental s id patch).2.households = s.households ∧
      (DatabaseStorage.updateRental s id patch).2.rentals =
        s.rentals.map (fun x => if x.id == id then mergeRental x patch else x) ∧
      (DatabaseStorage.updateRental s id patch).2.activityLogs.length =
        s.activityLogs.length + 1 := by
  have hany : s.rentals.any (fun x => x.id == id) = true :=
    any_of_find?_eq_some hfind
  have hfindDb : s.rentals.find? (fun x => x.id == id) = some r := hfind
  unfold MemStorage.updateRental DatabaseStorage.updateRental
  rw [hfind, hfindDb]
  simp only [Option.map_some']
  refine ⟨rfl, rfl, ?_, ?_, rfl, rfl, rfl, dbLog_length _ _⟩
  · show mapSet s.rentals _ _ = _
    rw [mapSet_of_any _ _ _ hany]
  · refine memLog_length _ _ ?_
    exact hlog

/-- **C10, witness.** Deactivating the active rental of an occupied
space through `updateRental` leaves the parking spaces untouched. -/
theorem c10_witness :
    (MemStorage.updateRental occupiedState 2 deactivatePatch).2.parkingSpaces =
      occupiedState.parkingSpaces :=
  (c10_updateRental_frame occupiedState 2 deactivatePatch activeRental2
    (by decide) (by decide)).1

theorem uniqRel_symm :
    Symmetric (fun r1 r2 : Rental =>
      r1.isActive = true → r2.isActive = true →
        r1.parkingSpaceId ≠ r2.parkingSpaceId) :=
  fun _ _ h ha hb => (h hb ha).symm

theorem occupancyInv_create (spaces : List ParkingSpace) (rentals : List Rental)
    (newR : Rental) (hact : newR.isActive = true)
    (hinv : occupancyInv spaces rentals) :
    occupancyInv
      (spaces.map (fun p => if p.id == newR.parkingSpaceId then
        { p with status := SpaceStatus.OCCUPIED } else p))
      (rentals ++ [newR]) := by
  intro p' hp'
  rw [List.mem_map] at hp'
  obtain ⟨p, hpmem, rfl⟩ := hp'
  by_cases hpid : p.id = newR.parkingSpaceId
  · rw [if_pos (by simpa using hpid)]
    constructor
    · intro _
      exact ⟨newR, List.mem_append_right _ (List.mem_singleton_self _),
        hpid.symm, hact⟩
    · intro _
      rfl
  · rw [if_neg (by simpa using hpid)]
    constructor
    · intro hocc
      obtain ⟨r, hr, hrid, hract⟩ := (hinv p hpmem).mp hocc
      exact ⟨r, List.mem_append_left _ hr, hrid, hract⟩
    · rintro ⟨r, hr, hrid, hract⟩
      rcases List.mem_append.mp hr with h1 | h1
      · exact (hinv p hpmem).mpr ⟨r, h1, hrid, hract⟩
      · rw [List.mem_singleton.mp h1] at hrid
        exact absurd hrid.symm hpid

theorem uniqInv_create (spaces : List ParkingSpace) (rentals : List Rental)
    (newR : Rental) (sp : ParkingSpace) (hmem : sp ∈ spaces)
    (hspid : sp.id = newR.parkingSpaceId)
    (havail : sp.status = SpaceStatus.AVAILABLE)
    (hinv : occupancyInv spaces rentals) (huni : uniqInv rentals) :
    uniqInv (rentals ++ [newR]) := by
  unfold uniqInv at huni ⊢
  rw [List.pairwise_append]
  refine ⟨huni, List.pairwise_singleton _ _, ?_⟩
  intro r1 hr1 r2 hr2 hact1 hact2
  obtain rfl := List.mem_singleton.mp hr2
  intro heqsp
  have hocc : sp.status = SpaceStatus.OCCUPIED :=
    (hinv sp hmem).mpr ⟨r1, hr1, by rw [heqsp, ← hspid], hact1⟩
  rw [havail] at hocc
  exact SpaceStatus.noConfusion hocc

theorem freshInv_create (rentals : List Rental) (counter : Nat) (newR : Rental)
    (hid : newR.id = counter)
    (hbound : ∀ r ∈ rentals, r.id < counter)
    (hnodup : (rentals.map (fun r => r.id)).Nodup) :
    (∀ r ∈ rentals ++ [newR], r.id < counter + 1) ∧
      ((rentals ++ [newR]).map (fun r => r.id)).Nodup := by
  constructor
  · intro r hr
    rcases List.mem_append.mp hr with h1 | h1
    · exact Nat.lt_succ_of_lt (hbound r h1)
    · rw [List.mem_singleton.mp h1, hid]
      exact Nat.lt_succ_self _
  · rw [List.map_append, List.nodup_append]
    refine ⟨hnodup, by simp, ?_⟩
    intro a ha1 ha2
    rw [List.mem_map] at ha1
    obtain ⟨r, hr, rfl⟩ := ha1
    simp only [List.map_cons, List.map_nil, List.mem_singleton] at ha2
    have hlt := hbound r hr
    rw [ha2, hid] at hlt
    exact Nat.lt_irrefl _ hlt

theorem occupancyInv_end (spaces : List ParkingSpace) (rentals : List Rental)
    (rid : Nat) (rent : Rental)
    (hfind : rentals.find? (fun r => r.id == rid) = some rent)
    (hact : rent.isActive = true)
    (hinv : occupancyInv spaces rentals)
    (huni : uniqInv rentals)
    (hnodup : (rentals.map (fun r => r.id)).Nodup) :
    occupancyInv
      (spaces.map (fun p => if p.id == rent.parkingSpaceId then
        { p with status := SpaceStatus.AVAILABLE } else p))
      (rentals.map (fun r => if r.id == rid then
        { r with isActive := false } else r)) := by
  have hrmem : rent ∈ rentals := List.mem_of_find?_eq_some hfind
  have hrid : rent.id = rid := by simpa using List.find?_some hfind
  intro p' hp'
  rw [List.mem_map] at hp'
  obtain ⟨p, hpmem, rfl⟩ := hp'
  by_cases hpid : p.id = rent.parkingSpaceId
  · rw [if_pos (by simpa using hpid)]
    constructor
    · intro habs
      exact absurd habs (by simp)
    · rintro ⟨r'', hmem'', hsp'', hact''⟩
      exfalso
      rw [List.mem_map] at hmem''
      obtain ⟨r', hr', rfl⟩ := hmem''
      by_cases hr'id : r'.id = rid
      · rw [if_pos (by simpa using hr'id)] at hact''
        simp at hact''
      · rw [if_neg (by simpa using hr'id)] at hact'' hsp''
        have hne : r' ≠ rent := fun he => hr'id (by rw [he, hrid])
        have hsp2 : r'.parkingSpaceId = p.id := hsp''
        have hR := List.Pairwise.forall uniqRel_symm huni hr' hrmem hne
        exact hR hact'' hact (by rw [hsp2, hpid])
  · rw [if_neg (by simpa using hpid)]
    constructor
    · intro hocc
      obtain ⟨r, hr, hrsp, hract⟩ := (hinv p hpmem).mp hocc
      have hridr : r.id ≠ rid := by
        intro he
        have heqr : r = rent :=
          List.inj_on_of_nodup_map hnodup hr hrmem (by rw [he, hrid])
        rw [heqr] at hrsp
        exact hpid hrsp.symm
      refine ⟨r, ?_, hrsp, hract⟩
      rw [List.mem_map]
      exact ⟨r, hr, by rw [if_neg (by simpa using hridr)]⟩
    · rintro ⟨r'', hmem'', hsp'', hact''⟩
      rw [List.mem_map] at hmem''
      obtain ⟨r', hr', rfl⟩ := hmem''
      by_cases hr'id : r'.id = rid
      · rw [if_pos (by simpa using hr'id)] at hact''
        simp at hact''
      · rw [if_neg (by simpa using hr'id)] at hact'' hsp''
        exact (hinv p hpmem).mpr ⟨r', hr', hsp'', hact''⟩

theorem uniqInv_end (rentals : List Rental) (rid : Nat) (huni : uniqInv rentals) :
    uniqInv (rentals.map (fun r => if r.id == rid then
      { r with isActive := false } else r)) := by
  unfold uniqInv at huni ⊢
  rw [List.pairwise_map]
  refine huni.imp ?_
  intro a b hab ha hb
  by_cases haid : a.id = rid
  · rw [if_pos (by simpa using haid)] at ha
    simp at ha
  · rw [if_neg (by simpa using haid)] at ha ⊢
    by_cases hbid : b.id = rid
    · rw [if_pos (by simpa using hbid)] at hb
      simp at hb
    · rw [if_neg (by simpa using hbid)] at hb ⊢
      exact hab ha hb

theorem freshInv_end (rentals : List Rental) (rid : Nat) (counter : Nat)
    (hbound : ∀ r ∈ rentals, r.id < counter)
    (hnodup : (rentals.map (fun r => r.id)).Nodup) :
    (∀ r ∈ rentals.map (fun r => if r.id == rid then
        { r with isActive := false } else r), r.id < counter) ∧
      ((rentals.map (fun r => if r.id == rid then
        { r with isActive := false } else r)).map (fun r => r.id)).Nodup := by
  have hids : (rentals.map (fun r => if r.id == rid then
      { r with isActive := false } else r)).map (fun r => r.id) =
        rentals.map (fun r => r.id) := by
    rw [List.map_map]
    refine List.map_congr_left ?_
    intro r hr
    by_cases h : r.id = rid
    · simp [h]
    · simp [h]
  constructor
  · intro r hr
    rw [List.mem_map] at hr
    obtain ⟨r0, hr0, rfl⟩ := hr
    by_cases h : r0.id = rid
    · rw [if_pos (by simpa using h)]
      exact hbound r0 hr0
    · rw [if_neg (by simpa using h)]
      exact hbound r0 hr0
  · rw [hids]
    exact hnodup

theorem dbLog_parkingSpaces (s : MemState) (log : InsertActivityLog) :
    (DatabaseStorage.createActivityLog s log).2.parkingSpaces = s.parkingSpaces := rfl

theorem dbLog_rentals (s : MemState) (log : InsertActivityLog) :
    (DatabaseStorage.createActivityLog s log).2.rentals = s.rentals := rfl

theorem dbLog_rentalCurrentId (s : MemState) (log : InsertActivityLog) :
    (DatabaseStorage.createActivityLog s log).2.rentalCurrentId =
      s.rentalCurrentId := rfl

theorem rentalStateOk_dbLog (t : MemState) (log : InsertActivityLog) :
    rentalStateOk (DatabaseStorage.createActivityLog t log).2 ↔ rentalStateOk t := by
  unfold rentalStateOk spaceOccupiedIffActiveRental atMostOneActivePerSpace
    rentalIdsFresh
  rw [dbLog_parkingSpaces, dbLog_rentals, dbLog_rentalCurrentId]

theorem apiCreateRentalDb_ok (s : MemState) (body : InsertRental)
    (hbody : body.isActive = true) (h : rentalStateOk s) :
    rentalStateOk (Routes.apiCreateRentalDb s body).2 := by
  obtain ⟨hinv, huni, hbound, hnodup⟩ := h
  unfold Routes.apiCreateRentalDb
  split
  next heq => exact ⟨hinv, huni, hbound, hnodup⟩
  next sp heq =>
    split
    next hsta => exact ⟨hinv, huni, hbound, hnodup⟩
    next hsta =>
      have havail : sp.status = SpaceStatus.AVAILABLE := not_not.mp hsta
      split
      next heqh => exact ⟨hinv, huni, hbound, hnodup⟩
      next hh heqh =>
        have heq2 : s.parkingSpaces.find? (fun p => p.id == body.parkingSpaceId) =
          some sp := heq
        have hspmem : sp ∈ s.parkingSpaces := List.mem_of_find?_eq_some heq2
        have hspid : sp.id = body.parkingSpaceId := by
          simpa using List.find?_some heq2
        dsimp only
        unfold DatabaseStorage.createRental
        dsimp only
        refine (rentalStateOk_dbLog _ _).mpr ?_
        refine ⟨?_, ?_, ?_, ?_⟩
        · exact occupancyInv_create s.parkingSpaces s.rentals
            { id := s.rentalCurrentId, parkingSpaceId := body.parkingSpaceId,
              householdId := body.householdId, licensePlate := body.licensePlate,
              startDate := body.startDate, endDate := body.endDate,
              isActive := body.isActive, notes := body.notes, createdAt := s.now }
            hbody hinv
        · exact uniqInv_create s.parkingSpaces s.rentals
            { id := s.rentalCurrentId, parkingSpaceId := body.parkingSpaceId,
              householdId := body.householdId, licensePlate := body.licensePlate,
              startDate := body.startDate, endDate := body.endDate,
              isActive := body.isActive, notes := body.notes, createdAt := s.now }
            sp hspmem hspid havail hinv huni
        · exact (freshInv_create s.rentals s.rentalCurrentId
            { id := s.rentalCurrentId, parkingSpaceId := body.parkingSpaceId,
              householdId := body.householdId, licensePlate := body.licensePlate,
              startDate := body.startDate, endDate := body.endDate,
              isActive := body.isActive, notes := body.notes, createdAt := s.now }
            rfl hbound hnodup).1
        · exact (freshInv_create s.rentals s.rentalCurrentId
            { id := s.rentalCurrentId, parkingSpaceId := body.parkingSpaceId,
              householdId := body.householdId, licensePlate := body.licensePlate,
              startDate := body.startDate, endDate := body.endDate,
              isActive := body.isActive, notes := body.notes, createdAt := s.now }
            rfl hbound hnodup).2

theorem apiEndRentalDb_state (s : MemState) (id : Nat) :
    (Routes.apiEndRentalDb s id).2 = (DatabaseStorage.endRental s id).2 := by
  unfold Routes.apiEndRentalDb
  dsimp only
  split <;> rfl

theorem endRentalDb_ok (s : MemState) (id : Nat) (h : rentalStateOk s) :
    rentalStateOk (DatabaseStorage.endRental s id).2 := by
  obtain ⟨hinv, huni, hbound, hnodup⟩ := h
  unfold DatabaseStorage.endRental
  split
  next heq => exact ⟨hinv, huni, hbound, hnodup⟩
  next rent heq =>
    split
    next hact => exact ⟨hinv, huni, hbound, hnodup⟩
    next hact =>
      have heq2 : s.rentals.find? (fun r => r.id == id) = some rent := heq
      have hactT : rent.isActive = true := by
        cases hb : rent.isActive
        · exact absurd hb hact
        · rfl
      dsimp only
      split
      next hsucc =>
        refine (rentalStateOk_dbLog _ _).mpr ?_
        refine ⟨?_, ?_, ?_, ?_⟩
        · exact occupancyInv_end s.parkingSpaces s.rentals id rent heq2 hactT
            hinv huni hnodup
        · exact uniqInv_end s.rentals id huni
        · exact (freshInv_end s.rentals id s.rentalCurrentId hbound hnodup).1
        · exact (freshInv_end s.rentals id s.rentalCurrentId hbound hnodup).2
      next hsucc =>
        exact absurd (any_of_find?_eq_some heq2) hsucc

theorem applyOpDb_ok (s : MemState) (op : ApiOp) (h : rentalStateOk s)
    (hop : opsCreateActive [op] = true) :
    rentalStateOk (applyOpDb s op) := by
  cases op with
  | createRental body =>
    have hbody : body.isActive = true := by
      have hb : (body.isActive && true) = true := hop
      simpa using hb
    exact apiCreateRentalDb_ok s body hbody h
  | endRental id =>
    show rentalStateOk (Routes.apiEndRentalDb s id).2
    rw [apiEndRentalDb_state]
    exact endRentalDb_ok s id h

theorem runOpsDb_ok (ops : List ApiOp) : ∀ s : MemState, rentalStateOk s →
    opsCreateActive ops = true → rentalStateOk (runOpsDb s ops) := by
  induction ops with
  | nil => intro s h _; exact h
  | cons op rest ih =>
    intro s h hall
    have hall2 : (opsCreateActive [op] && opsCreateActive rest) = true := by
      have heq : opsCreateActive (op :: rest) =
          (opsCreateActive [op] && opsCreateActive rest) := by
        unfold opsCreateActive
        rw [List.all_cons, List.all_cons, List.all_nil, Bool.and_true]
      rw [← heq]
      exact hall
    rw [Bool.and_eq_true] at hall2
    show rentalStateOk (runOpsDb (applyOpDb s op) rest)
    exact ih (applyOpDb s op) (applyOpDb_ok s op h hall2.1) hall2.2

/-- **C1, amended.** On the database backend — where `endRental` refuses
a rental that is already inactive — every state reachable through
route-level create-rental and end-rental operations from a state
satisfying the invariant (together with at-most-one-active-rental-per-
space and fresh, distinct rental ids, both of which are preserved) again
satisfies it: a space is OCCUPIED exactly when an active rental
references it, immediately after each operation completes.  Create
bodies are required to carry `isActive = true`, the schema default.  The
in-memory backend violates the claim because its `endRental` replays. -/
theorem c1_occupied_iff_active_invariant (s : MemState) (ops : List ApiOp)
    (hinv : spaceOccupiedIffActiveRental s)
    (huni : atMostOneActivePerSpace s)
    (hfresh : rentalIdsFresh s)
    (hbodies : opsCreateActive ops = true) :
    spaceOccupiedIffActiveRental (runOpsDb s ops) ∧
      atMostOneActivePerSpace (runOpsDb s ops) :=
  ⟨(runOpsDb_ok ops s ⟨hinv, huni, hfresh⟩ hbodies).1,
    (runOpsDb_ok ops s ⟨hinv, huni, hfresh⟩ hbodies).2.1⟩

/-- **C1, witness.** The stale-end trace that breaks the in-memory
backend keeps the invariant on the database backend: the replayed end
request is refused there. -/
theorem c1_amended_witness :
    spaceOccupiedIffActiveRental (runOpsDb baseState staleEndOps) ∧
      atMostOneActivePerSpace (runOpsDb baseState staleEndOps) :=
  c1_occupied_iff_active_invariant baseState staleEndOps
    (by decide) (by decide) (by decide) (by decide)

end ParkingRental
